import Mathlib

/-!
Verification of the run-planner core of `pytorch-boilerplate`

Shallow embedding of `utils/planner.py` (the planner class hierarchy:
`BasePlanner`, `Planner`, `SequencePlanner`, `ParallelPlanner`,
`CombinatorPlanner`) and of the configuration store contract implemented by
`utils/settings.py` (`Settings.__setattr__` / `Settings.validate`).

Conventions of the embedding:
* Python setting values are modelled by the inductive `Value`; floats are
  modelled as decimal literals (mantissa and number of decimal places), which
  is exact for every literal appearing in the development and prints the way
  Python prints those literals.
* The shared mutable `settings` singleton is modelled as an explicit
  `Store := String → Value` threaded through every operation, following the
  spec's `ConfigurationStore` contract (`get` is total).  `Settings.__setattr__`
  writes to `__dict__` first and only then validates, so it is modelled as an
  unconditional functional update paired with the boolean verdict of
  `Settings.validate`.
* A Python `__next__` returns either a run name, raises `StopIteration`
  (normal exhaustion), or raises some other exception (`TypeError` on a not yet
  begun iterator, `AssertionError` out of `Settings.validate`, ...).  These
  three outcomes are the constructors of `NextRes` (`name` / `stop` / `err`).
* `SequencePlanner.__next__` calls `next(self)` recursively and the
  `CombinatorPlanner` carry loop walks the child list, so the step function
  `pNext` carries an explicit fuel argument; every loop in the source is
  bounded by the number of children, hence any fuel larger than the total
  number of planner nodes is enough and the fuel-out branch is unreachable in
  the verified scenarios.
-/

/-- A Python value stored in the configuration object.  Floats are decimal
literals: `vFloat m e` stands for `m / 10^e` (e.g. `vFloat 1 2` is `0.01`).
`vIntList` models integer tuples such as `hidden_layers_size`. -/
inductive Value where
  | vInt : Int → Value
  | vFloat : Int → Nat → Value
  | vStr : String → Value
  | vBool : Bool → Value
  | vIntList : List Int → Value
deriving DecidableEq, Repr

/-- Left-pad a digit string with zeros to width `w`. -/
def padLeftZeros (s : String) (w : Nat) : String :=
  if s.length < w then String.mk (List.replicate (w - s.length) '0') ++ s
  else s

/-- Decimal rendering of `vFloat m e`, matching Python's `str` on the float
literals used in this development (`str(0.1) = '0.1'`, `str(0.01) = '0.01'`). -/
def floatStr (m : Int) (e : Nat) : String :=
  let sign := if m < 0 then "-" else ""
  let n := m.natAbs
  if e = 0 then sign ++ ToString.toString n ++ ".0"
  else
    let q := n / 10 ^ e
    let r := n % 10 ^ e
    sign ++ ToString.toString q ++ "." ++ padLeftZeros (ToString.toString r) e

/-- Python `str(value)`, as used by `Planner.format_name`'s
`f'{self.setting_name}-{value}'`. -/
def Value.str : Value → String
  | .vInt n => ToString.toString n
  | .vFloat m e => floatStr m e
  | .vStr s => s
  | .vBool b => if b then "True" else "False"
  | .vIntList l => "(" ++ String.intercalate ", " (l.map (fun i => ToString.toString i)) ++ ")"

/-- The shared mutable configuration object (`settings` in `utils/settings.py`),
seen through the spec's `ConfigurationStore` contract: a total map from setting
names to values. -/
def Store := String → Value

/-- Raw write to the store: `self.__dict__[name] = value`. -/
def Store.set (st : Store) (name : String) (value : Value) : Store :=
  fun k => if k = name then value else st k

/-- Characters rejected in a run name by `Settings.validate`
(the regex `[/:"*?<>|\\]+`). -/
def forbiddenNameChars : List Char := ['/', ':', '"', '*', '?', '<', '>', '|', '\\']

/-- Python `str.strip()`: drop leading and trailing whitespace (implemented
over the character list so that it evaluates inside the kernel). -/
def pyStrip (s : String) : String :=
  String.mk (((s.data.dropWhile Char.isWhitespace).reverse.dropWhile
    Char.isWhitespace).reverse)

/-- Model of `assert self.run_name.strip() == self.run_name` and the run-name character
check of `Settings.validate`.  A non-string `run_name` makes `.strip()` raise,
which aborts `validate` just like a failed assert, hence `false`. -/
def validRunName : Value → Bool
  | .vStr s => (pyStrip s == s) && !(s.data.any (fun c => forbiddenNameChars.contains c))
  | _ => false

/-- List `possible_log_levels` in `Settings.validate`. -/
def possibleLogLevels : List String :=
  ["CRITICAL", "FATAL", "ERROR", "WARN", "WARNING", "INFO", "DEBUG", "NOTSET"]

/-- Python `str.upper()` (ASCII, which covers every value in this model). -/
def pyUpper (s : String) : String :=
  String.mk (s.data.map Char.toUpper)

/-- The log-level assert of `Settings.validate`.  The source evaluates
`level.upper() in possible_log_levels or isinstance(level, int)`; on a
non-string the leading `.upper()` raises before the `isinstance` disjunct is
reached, so any non-string value aborts `validate`. -/
def validLogLevel : Value → Bool
  | .vStr s => possibleLogLevels.contains (pyUpper s)
  | _ => false

/-- Python `value > bound` for an assert of `Settings.validate`; comparison of
a non-numeric value raises, which aborts `validate` like a failed assert. -/
def Value.intGt : Value → Int → Bool
  | .vInt n, b => b < n
  | .vFloat m e, b => b * (10 : Int) ^ e < m
  | .vBool bo, b => b < (if bo then 1 else 0)
  | _, _ => false

/-- Python `value >= bound`, same conventions as `Value.intGt`. -/
def Value.intGe : Value → Int → Bool
  | .vInt n, b => b ≤ n
  | .vFloat m e, b => b * (10 : Int) ^ e ≤ m
  | .vBool bo, b => b ≤ (if bo then 1 else 0)
  | _, _ => false

/-- Model of `assert all((a > 0 for a in self.hidden_layers_size))`; iterating a
non-sequence raises, aborting `validate`. -/
def validHiddenLayers : Value → Bool
  | .vIntList l => l.all (fun a => 0 < a)
  | _ => false

/-- Model of `assert self.device in ('auto', 'cpu', 'cuda')`. -/
def validDevice : Value → Bool
  | .vStr s => s == "auto" || s == "cpu" || s == "cuda"
  | _ => false

/-- Model of `Settings.validate` of `utils/settings.py`: the conjunction (in source
order, short-circuiting like Python's sequence of asserts) of every assert. -/
def validate (st : Store) : Bool :=
  validRunName (st "run_name")
  && validLogLevel (st "logger_console_level")
  && validLogLevel (st "logger_file_level")
  && Value.intGt (st "nb_classes") 0
  && Value.intGt (st "train_point_per_class") 0
  && Value.intGt (st "test_point_per_class") 0
  && validHiddenLayers (st "hidden_layers_size")
  && validDevice (st "device")
  && Value.intGt (st "batch_size") 0
  && Value.intGt (st "nb_epoch") 0
  && Value.intGe (st "checkpoints_per_epoch") 0

/-- Model of `Settings.__setattr__`: the new value is written to `self.__dict__` first
and `self.validate()` runs afterwards; a `False` verdict models the
`AssertionError` the source raises after the write has already happened. -/
def settingsSetAttr (st : Store) (name : String) (value : Value) : Store × Bool :=
  let st' := Store.set st name value
  (st', validate st')

/-- The default values of the `Settings` dataclass.  Keys that are not fields
of `Settings` read as `vInt 0`, matching the spec's total
`ConfigurationStore.get`. -/
def defaultStore : Store := fun k =>
  if k = "run_name" then .vStr ""
  else if k = "seed" then .vInt 42
  else if k = "logger_console_level" then .vStr "INFO"
  else if k = "logger_file_level" then .vStr "DEBUG"
  else if k = "logger_file_enable" then .vBool true
  else if k = "visual_progress_bar" then .vBool true
  else if k = "logger_progress_frequency" then .vInt 10
  else if k = "show_images" then .vBool true
  else if k = "save_images" then .vBool true
  else if k = "save_network" then .vBool true
  else if k = "nb_classes" then .vInt 4
  else if k = "train_point_per_class" then .vInt 2000
  else if k = "test_point_per_class" then .vInt 500
  else if k = "validation_point_per_class" then .vInt 500
  else if k = "hidden_layers_size" then .vIntList [50, 50]
  else if k = "trained_network_cache_path" then .vStr ""
  else if k = "device" then .vStr "auto"
  else if k = "learning_rate" then .vFloat 1 3
  else if k = "momentum" then .vFloat 9 1
  else if k = "batch_size" then .vInt 128
  else if k = "nb_epoch" then .vInt 20
  else if k = "early_stopping" then .vBool true
  else if k = "checkpoints_per_epoch" then .vInt 1
  else if k = "checkpoint_train_size" then .vInt 1280
  else if k = "checkpoint_validation" then .vBool true
  else if k = "checkpoint_save_network" then .vBool false
  else .vInt 0

/-- The setting names `Settings.validate` reads: writes to any other key
cannot change the verdict of `validate`. -/
def validatedKeys : List String :=
  ["run_name", "logger_console_level", "logger_file_level", "nb_classes",
   "train_point_per_class", "test_point_per_class", "hidden_layers_size",
   "device", "batch_size", "nb_epoch", "checkpoints_per_epoch"]

/-!
The planner tree of `utils/planner.py`

One inductive models the four concrete classes together with their mutable
iteration state:

* `leaf` is class `Planner` (`setting_name`, `setting_values`,
  `runs_basename`, `num_count`, `_setting_original_value`,
  `_values_iterator` — the iterator is the list of values not yet consumed,
  `none` before the first `__iter__`);
* `seq` is `SequencePlanner` (`planners`, `runs_basename`, `num_count`,
  `_current_planner_id`; `begun` records whether `__iter__` has run, i.e.
  whether `_planners_iterator` / `_current_planner_iterator` are not `None`);
* `par` is `ParallelPlanner` (`planners`, `runs_basename`, `num_count`;
  `begun` records `_planners_iterators` being set);
* `comb` is `CombinatorPlanner` (`planners`, `runs_basename`, `num_count`,
  `begun`, `_runs_name` — `none` entries are the initial Python `None`s — and
  `_first_iter`).
-/
inductive BasePlanner where
  | leaf (setting_name : String) (setting_values : List Value) (runs_basename : String)
      (num_count : Nat) (orig : Option Value) (it : Option (List Value))
  | seq (planners : List BasePlanner) (runs_basename : String)
      (num_count : Nat) (cur_id : Nat) (begun : Bool)
  | par (planners : List BasePlanner) (runs_basename : String)
      (num_count : Nat) (begun : Bool)
  | comb (planners : List BasePlanner) (runs_basename : String)
      (num_count : Nat) (begun : Bool) (runs_name : List (Option String)) (first_iter : Bool)

/-- Model of `Planner.__init__(setting_name, setting_values, runs_basename)`. -/
def PlannerInit (setting_name : String) (setting_values : List Value)
    (runs_basename : String) : BasePlanner :=
  .leaf setting_name setting_values runs_basename 0 none none

/-- Outcome of one Python `__next__` call: a produced run name, a
`StopIteration` (normal exhaustion), or any other uncaught exception
(`TypeError` on a not-yet-begun iterator, `AssertionError` from
`Settings.validate`, `IndexError`, ...). -/
inductive NextRes where
  | name : String → NextRes
  | stop : NextRes
  | err : NextRes
deriving DecidableEq, Repr

def NextRes.isName : NextRes → Bool
  | .name _ => true
  | _ => false

/-- Result of one `__next__` step: the planner with its updated state, the
store after the step, the `(key, value)` writes the step performed on the
store (in order), and the outcome. -/
structure StepOut where
  p : BasePlanner
  st : Store
  writes : List (String × Value)
  res : NextRes

/-- Result of `reset_original_values`: updated store, writes performed, and
whether it completed without raising (a write may fail validation). -/
structure ResetOut where
  p : BasePlanner
  st : Store
  writes : List (String × Value)
  ok : Bool

/-- Format `{self.runs_basename}-{self.num_count:03d}` of `BasePlanner.basename`. -/
def fmt3 (n : Nat) : String :=
  if n < 10 then "00" ++ ToString.toString n
  else if n < 100 then "0" ++ ToString.toString n
  else ToString.toString n

def basenameFmt (bn : String) (c : Nat) : String := bn ++ "-" ++ fmt3 c

mutual
/-- Model of `__len__` of each planner class: `Planner` → number of values,
`SequencePlanner` → `sum(map(len, planners))`, `ParallelPlanner` →
`len(planners[0])`, `CombinatorPlanner` → `math.prod(map(len, planners))`.
(The `[]` fallback of `par` models the `IndexError` of `len` on an empty
child list, which the constructor rules out.) -/
def pLen : BasePlanner → Nat
  | .leaf _ vs _ _ _ _ => vs.length
  | .seq cs _ _ _ _ => pLenSum cs
  | .par cs _ _ _ => (match cs with | c0 :: _ => pLen c0 | [] => 0)
  | .comb cs _ _ _ _ _ => pLenProd cs

def pLenSum : List BasePlanner → Nat
  | [] => 0
  | c :: cs => pLen c + pLenSum cs

def pLenProd : List BasePlanner → Nat
  | [] => 1
  | c :: cs => pLen c * pLenProd cs
end

/-- Model of `SequencePlanner.__init__`: rejects an empty child list, stores the
children with `_current_planner_id = 0` and no iterators yet. -/
def SequencePlannerInit (planners : List BasePlanner) (runs_basename : String) :
    Except String BasePlanner :=
  if planners.length = 0 then .error "Empty planners list for sequence planner"
  else .ok (.seq planners runs_basename 0 0 false)

/-- Model of `ParallelPlanner.__init__`: rejects an empty child list, then rejects
children of unequal `len` (`all(len(x) == len(planners[0]) for x in planners)`). -/
def ParallelPlannerInit (planners : List BasePlanner) (runs_basename : String) :
    Except String BasePlanner :=
  match planners with
  | [] => .error "Empty planners list for parallel planner"
  | p0 :: rest =>
    if (p0 :: rest).all (fun x => pLen x == pLen p0) then
      .ok (.par (p0 :: rest) runs_basename 0 false)
    else .error "Impossible to run parallel planner if all sub-planners do not have the same length"

/-- Model of `CombinatorPlanner.__init__`: rejects only an empty child list;
`_runs_name` starts as `[None] * len(planners)` and `_first_iter` as `True`. -/
def CombinatorPlannerInit (planners : List BasePlanner) (runs_basename : String) :
    Except String BasePlanner :=
  match planners with
  | [] => .error "Empty planners list for combinator planner"
  | p0 :: rest =>
    .ok (.comb (p0 :: rest) runs_basename 0 false ((p0 :: rest).map (fun _ => none)) true)

mutual
/-- Model of `__iter__` of each planner class.  `Planner.__iter__` captures the current
store value as `_setting_original_value` and rewinds `_values_iterator`;
`SequencePlanner.__iter__` rewinds to child 0 and begins it;
`ParallelPlanner.__iter__`/`CombinatorPlanner.__iter__` begin every child.
`CombinatorPlanner.__iter__` does NOT reset `_first_iter` or `_runs_name`. -/
def pIter : BasePlanner → Store → BasePlanner
  | .leaf k vs bn c _ _, st => .leaf k vs bn c (some (st k)) (some vs)
  | .seq cs bn c _ _, st =>
    .seq (match cs with | [] => [] | c0 :: rest => pIter c0 st :: rest) bn c 0 true
  | .par cs bn c _, st => .par (pIterList cs st) bn c true
  | .comb cs bn c _ names fi, st => .comb (pIterList cs st) bn c true names fi

def pIterList : List BasePlanner → Store → List BasePlanner
  | [], _ => []
  | p :: ps, st => pIter p st :: pIterList ps st
end

mutual
/-- Model of `reset_original_values` of each planner class.  A leaf writes its
`_setting_original_value` back (through `setattr`, hence re-validating) only
if it has been begun and the current store value differs; composites reset
every child in order, stopping early if a write raises. -/
def pReset : BasePlanner → Store → ResetOut
  | .leaf k vs bn c orig it, st =>
    match it, orig with
    | some itv, some v0 =>
      if st k ≠ v0 then
        let (st', ok) := settingsSetAttr st k v0
        ⟨.leaf k vs bn c (some v0) (some itv), st', [(k, v0)], ok⟩
      else ⟨.leaf k vs bn c (some v0) (some itv), st, [], true⟩
    | _, _ => ⟨.leaf k vs bn c orig it, st, [], true⟩
  | .seq cs bn c id b, st =>
    let r := pResetList cs st
    ⟨.seq r.1 bn c id b, r.2.1, r.2.2.1, r.2.2.2⟩
  | .par cs bn c b, st =>
    let r := pResetList cs st
    ⟨.par r.1 bn c b, r.2.1, r.2.2.1, r.2.2.2⟩
  | .comb cs bn c b names fi, st =>
    let r := pResetList cs st
    ⟨.comb r.1 bn c b names fi, r.2.1, r.2.2.1, r.2.2.2⟩

def pResetList : List BasePlanner → Store →
    (List BasePlanner × Store × List (String × Value) × Bool)
  | [], st => ([], st, [], true)
  | p :: ps, st =>
    let r := pReset p st
    if r.ok then
      let rest := pResetList ps r.st
      (r.p :: rest.1, rest.2.1, r.writes ++ rest.2.2.1, rest.2.2.2)
    else (r.p :: ps, r.st, r.writes, false)
end

/-- Model of `'_'.join(self._runs_name)` of `CombinatorPlanner.format_name` (joining a
`None` fragment would raise `TypeError`, hence `none`). -/
def flattenNames : List (Option String) → Option (List String)
  | [] => some []
  | some n :: rest => (flattenNames rest).map (fun ns => n :: ns)
  | none :: _ => none

/-- Model of `CombinatorPlanner.format_name`: the node's own basename and counter when
a basename is set, otherwise the `_`-join of the cached child fragments. -/
def combFormat (bn : String) (cnt : Nat) (names : List (Option String)) : NextRes :=
  if bn ≠ "" then .name (basenameFmt bn cnt)
  else
    match flattenNames names with
    | some ns => .name (String.intercalate "_" ns)
    | none => .err

/-- The body of `SequencePlanner.__next__` for the child at `_current_planner_id`
(argument `id`), with `step` the one-step function for children.  On
`StopIteration` from the current child it resets that child's settings,
increments `_current_planner_id`, opens the next child if any (re-raising
`StopIteration` otherwise) and re-enters `__next__` recursively — which
increments `num_count` (`cnt`) again.  The `rem` bound is the length of the
remaining child list plus one, so the `rem = 0` fallback is unreachable. -/
def seqNextAux (step : BasePlanner → Store → StepOut) :
    Nat → List BasePlanner → String → Nat → Nat → Store → StepOut
  | 0, cs, bn, cnt, id, st => ⟨.seq cs bn cnt id true, st, [], .err⟩
  | rem+1, cs, bn, cnt, id, st =>
    match cs[id]? with
    | none => ⟨.seq cs bn cnt id true, st, [], .err⟩
    | some child =>
      let o := step child st
      let cs1 := cs.set id o.p
      match o.res with
      | .name n =>
        ⟨.seq cs1 bn cnt id true, o.st, o.writes,
          .name (if bn ≠ "" then basenameFmt bn cnt else n)⟩
      | .err => ⟨.seq cs1 bn cnt id true, o.st, o.writes, .err⟩
      | .stop =>
        let r := pReset o.p o.st
        let cs2 := cs1.set id r.p
        if r.ok then
          match cs2[id+1]? with
          | none => ⟨.seq cs2 bn cnt (id+1) true, r.st, o.writes ++ r.writes, .stop⟩
          | some nxt =>
            let cs3 := cs2.set (id+1) (pIter nxt r.st)
            let o2 := seqNextAux step rem cs3 bn (cnt+1) (id+1) r.st
            ⟨o2.p, o2.st, o.writes ++ r.writes ++ o2.writes, o2.res⟩
        else ⟨.seq cs2 bn cnt id true, r.st, o.writes ++ r.writes, .err⟩

/-- The list comprehension `[next(it) for it in self._planners_iterators]`
shared by `ParallelPlanner.__next__` and the first iteration of
`CombinatorPlanner.__next__`: children are advanced in order until all
succeed (`inl` of their names) or one raises (`inr`), leaving the remaining
children untouched. -/
def parNextAux (step : BasePlanner → Store → StepOut) :
    List BasePlanner → Store →
    (List BasePlanner × Store × List (String × Value) × (List String ⊕ NextRes))
  | [], st => ([], st, [], .inl [])
  | p :: ps, st =>
    let o := step p st
    match o.res with
    | .name n =>
      let rest := parNextAux step ps o.st
      (o.p :: rest.1, rest.2.1, o.writes ++ rest.2.2.1,
        match rest.2.2.2 with | .inl ns => .inl (n :: ns) | .inr e => .inr e)
    | r => (o.p :: ps, o.st, o.writes, .inr r)

/-- The `for i in range(len(self.planners))` carry loop of
`CombinatorPlanner.__next__` starting at child `i`: advance child `i` and
return on success; on `StopIteration` re-raise if `i` is the last child,
otherwise rewind child `i` (`iter`), take its first value, and carry on to
child `i+1`.  A `StopIteration` raised while rewinding (zero-length child)
escapes the `except` block, i.e. propagates as exhaustion.  `rem` starts as
the number of children, so the `rem = 0` fallback (the loop falling off the
end, which in Python would make `__next__` return `None`) is unreachable for
constructor-built planners. -/
def combCarryAux (step : BasePlanner → Store → StepOut) (bn : String) (cnt : Nat) :
    Nat → Nat → List BasePlanner → List (Option String) → Store → StepOut
  | 0, _, cs, names, st => ⟨.comb cs bn cnt true names false, st, [], .err⟩
  | rem+1, i, cs, names, st =>
    match cs[i]? with
    | none => ⟨.comb cs bn cnt true names false, st, [], .err⟩
    | some child =>
      let o := step child st
      let cs1 := cs.set i o.p
      match o.res with
      | .name n =>
        let names1 := names.set i (some n)
        ⟨.comb cs1 bn cnt true names1 false, o.st, o.writes, combFormat bn cnt names1⟩
      | .err => ⟨.comb cs1 bn cnt true names false, o.st, o.writes, .err⟩
      | .stop =>
        if i == cs.length - 1 then
          ⟨.comb cs1 bn cnt true names false, o.st, o.writes, .stop⟩
        else
          let fresh := pIter o.p o.st
          let o2 := step fresh o.st
          let cs2 := cs1.set i o2.p
          match o2.res with
          | .name n2 =>
            let names2 := names.set i (some n2)
            let o3 := combCarryAux step bn cnt rem (i+1) cs2 names2 o2.st
            ⟨o3.p, o3.st, o.writes ++ o2.writes ++ o3.writes, o3.res⟩
          | r2 => ⟨.comb cs2 bn cnt true names false, o2.st, o.writes ++ o2.writes, r2⟩

/-- Model of `__next__` of each planner class.  Every variant starts with
`super().__next__()`, which increments `num_count` unconditionally — also on
calls that end in `StopIteration` or another exception.

* `leaf` (`Planner.__next__`): take the next value (exhausted iterator →
  `stop`, iterator still `None` → `err`), `setattr` it on the store (write
  first, then validate; a failed validation is `err` with the write kept),
  and format the run name (`basename()` when a basename is set, else
  `f'{setting_name}-{value}'`).
* `seq`: delegate to `seqNextAux` at the current child.
* `par` (`ParallelPlanner.__next__`): advance every child in order; a child's
  `StopIteration` propagates.  Name: own basename, else `_`-join of the child
  names.
* `comb` (`CombinatorPlanner.__next__`): on the first call clear
  `_first_iter`, step every child once to load `_runs_name`; afterwards run
  the odometer carry loop from child 0.

The fuel only bounds the recursion depth (`SequencePlanner.__next__` calls
`next(self)` and nesting recurses into children); it is unreachable whenever
it exceeds the number of nodes of the tree. -/
def pNext : Nat → BasePlanner → Store → StepOut
  | 0, p, st => ⟨p, st, [], .err⟩
  | fuel+1, p, st =>
    match p with
    | .leaf k vs bn c orig it =>
      let c1 := c + 1
      match it with
      | none => ⟨.leaf k vs bn c1 orig it, st, [], .err⟩
      | some [] => ⟨.leaf k vs bn c1 orig (some []), st, [], .stop⟩
      | some (v :: rest) =>
        let (st', ok) := settingsSetAttr st k v
        let nm := if bn ≠ "" then basenameFmt bn c1 else k ++ "-" ++ Value.str v
        ⟨.leaf k vs bn c1 orig (some rest), st', [(k, v)],
          if ok then .name nm else .err⟩
    | .seq cs bn c id begun =>
      if begun then seqNextAux (pNext fuel) (cs.length + 1) cs bn (c+1) id st
      else ⟨.seq cs bn (c+1) id begun, st, [], .err⟩
    | .par cs bn c begun =>
      if begun then
        let r := parNextAux (pNext fuel) cs st
        match r.2.2.2 with
        | .inl ns =>
          ⟨.par r.1 bn (c+1) true, r.2.1, r.2.2.1,
            .name (if bn ≠ "" then basenameFmt bn (c+1) else String.intercalate "_" ns)⟩
        | .inr e => ⟨.par r.1 bn (c+1) true, r.2.1, r.2.2.1, e⟩
      else ⟨.par cs bn (c+1) begun, st, [], .err⟩
    | .comb cs bn c begun names fi =>
      if begun then
        if fi then
          let r := parNextAux (pNext fuel) cs st
          match r.2.2.2 with
          | .inl ns =>
            ⟨.comb r.1 bn (c+1) true (ns.map some) false, r.2.1, r.2.2.1,
              combFormat bn (c+1) (ns.map some)⟩
          | .inr e => ⟨.comb r.1 bn (c+1) true names false, r.2.1, r.2.2.1, e⟩
        else combCarryAux (pNext fuel) bn (c+1) cs.length 0 cs names st
      else ⟨.comb cs bn (c+1) begun names fi, st, [], .err⟩

/-- Drive a planner for at most `n` steps, recording each step's outcome; the
trace ends early with the first step whose outcome is not a run name (that
final step is included). -/
def runTrace : Nat → (BasePlanner → Store → StepOut) → BasePlanner → Store → List StepOut
  | 0, _, _, _ => []
  | n+1, step, p, st =>
    match (step p st).res with
    | .name _ => step p st :: runTrace n step (step p st).p (step p st).st
    | .stop => [step p st]
    | .err => [step p st]

/-- Planner state and store after driving at most `n` steps (stopping at the
first non-name outcome, whose state is kept). -/
def runEnd : Nat → (BasePlanner → Store → StepOut) → BasePlanner → Store → BasePlanner × Store
  | 0, _, p, st => (p, st)
  | n+1, step, p, st =>
    match (step p st).res with
    | .name _ => runEnd n step (step p st).p (step p st).st
    | .stop => ((step p st).p, (step p st).st)
    | .err => ((step p st).p, (step p st).st)

/-- The run names of a trace. -/
def traceNames (t : List StepOut) : List String :=
  t.filterMap (fun o => match o.res with | .name n => some n | _ => none)

/-!
Concrete scenarios used by the claims below (all built through the
constructor functions; the accompanying theorems record the constructor
equations).
-/

/-- Scenario of spec §8: `CombinatorPlanner([Planner('lr', [0.1, 0.01]),
Planner('epochs', [1, 5, 10])])`. -/
def combLrEpochs : BasePlanner :=
  .comb [PlannerInit "lr" [.vFloat 1 1, .vFloat 1 2] "",
         PlannerInit "epochs" [.vInt 1, .vInt 5, .vInt 10] ""]
    "" 0 false [none, none] true

/-- Scenario `CombinatorPlanner([Planner('a', [1]), Planner('b', [2])])`. -/
def combAB : BasePlanner :=
  .comb [PlannerInit "a" [.vInt 1] "", PlannerInit "b" [.vInt 2] ""]
    "" 0 false [none, none] true

/-- Scenario `Planner('a', [1], runs_basename='r')`. -/
def leafABase : BasePlanner := PlannerInit "a" [.vInt 1] "r"

/-- Scenario `SequencePlanner([Planner('a', [1]), Planner('b', [2])], 's')`. -/
def seqABBase : BasePlanner :=
  .seq [PlannerInit "a" [.vInt 1] "", PlannerInit "b" [.vInt 2] ""] "s" 0 0 false

/-- Scenario `ParallelPlanner([Planner('a', [1]), Planner('b', [2])])`. -/
def parAB : BasePlanner :=
  .par [PlannerInit "a" [.vInt 1] "", PlannerInit "b" [.vInt 2] ""] "" 0 false

/-- Scenario `CombinatorPlanner([Planner('a', [])])` — a zero-length child. -/
def combEmptyChild : BasePlanner :=
  .comb [PlannerInit "a" [] ""] "" 0 false [none] true

/-- Scenario `CombinatorPlanner([Planner('lr', [0.1, 0.01]),
Planner('ep', [1, 5])])`, used as a child of a `SequencePlanner`. -/
def combLrEp : BasePlanner :=
  .comb [PlannerInit "lr" [.vFloat 1 1, .vFloat 1 2] "",
         PlannerInit "ep" [.vInt 1, .vInt 5] ""]
    "" 0 false [none, none] true

/-- Scenario `SequencePlanner([CombinatorPlanner([Planner('lr', [0.1, 0.01]),
Planner('ep', [1, 5])]), Planner('d', [7])])`. -/
def seqCombLeaf : BasePlanner :=
  .seq [combLrEp, PlannerInit "d" [.vInt 7] ""] "" 0 0 false

/-- Scenario `SequencePlanner([Planner('a', [1, 2]), Planner('b', [7])])`. -/
def seqAB : BasePlanner :=
  .seq [PlannerInit "a" [.vInt 1, .vInt 2] "", PlannerInit "b" [.vInt 7] ""] "" 0 0 false

/-!
Theorems.  General lemmas about the embedding first, then one theorem per
claim of the specification (with a witness instance whenever the claim
theorem carries hypotheses).
-/

theorem Store.set_self (st : Store) (name : String) (value : Value) :
    Store.set st name value name = value := by
  simp [Store.set]

theorem Store.set_ne (st : Store) (name k : String) (value : Value) (h : k ≠ name) :
    Store.set st name value k = st k := by
  simp [Store.set, h]

/-- Writing a key that `Settings.validate` never reads cannot change the
verdict of `Settings.validate`. -/
theorem validate_set_of_not_validated (st : Store) (k : String) (v : Value)
    (hk : k ∉ validatedKeys) : validate (Store.set st k v) = validate st := by
  simp only [validatedKeys, List.mem_cons, List.mem_singleton, not_or] at hk
  obtain ⟨h1, h2, h3, h4, h5, h6, h7, h8, h9, h10, h11, -⟩ := hk
  unfold validate
  rw [Store.set_ne st k _ v (Ne.symm h1), Store.set_ne st k _ v (Ne.symm h2),
    Store.set_ne st k _ v (Ne.symm h3), Store.set_ne st k _ v (Ne.symm h4),
    Store.set_ne st k _ v (Ne.symm h5), Store.set_ne st k _ v (Ne.symm h6),
    Store.set_ne st k _ v (Ne.symm h7), Store.set_ne st k _ v (Ne.symm h8),
    Store.set_ne st k _ v (Ne.symm h9), Store.set_ne st k _ v (Ne.symm h10),
    Store.set_ne st k _ v (Ne.symm h11)]

theorem pLenSum_eq_map_sum (cs : List BasePlanner) :
    pLenSum cs = (cs.map pLen).sum := by
  induction cs with
  | nil => rfl
  | cons c cs ih => simp [pLenSum, ih]

theorem pLenProd_eq_map_prod (cs : List BasePlanner) :
    pLenProd cs = (cs.map pLen).prod := by
  induction cs with
  | nil => rfl
  | cons c cs ih => simp [pLenProd, ih]

/-- One successful step of a begun leaf: the pending value is written first
(`setattr` = write then validate) and, when the write passes validation, the
formatted run name is produced. -/
theorem pNext_leaf_cons (fuel : Nat) (k bn : String) (vs0 rest : List Value)
    (v : Value) (c : Nat) (orig : Option Value) (st : Store)
    (hval : validate (Store.set st k v) = true) :
    pNext (fuel+1) (.leaf k vs0 bn c orig (some (v :: rest))) st
      = ⟨.leaf k vs0 bn (c+1) orig (some rest), Store.set st k v, [(k, v)],
          .name (if bn ≠ "" then basenameFmt bn (c+1) else k ++ "-" ++ Value.str v)⟩ := by
  simp [pNext, settingsSetAttr, hval]

/-- Full characterisation of iterating a begun leaf `Planner` whose iterator
still holds `vs` (for a key that validation does not constrain): each pending
value is written in order, one write per advance, every such advance
succeeds; the advance after the last value signals `StopIteration` with no
write; when no basename is set the names are `{key}-{value}`; and afterwards
only `num_count` and the consumed iterator changed, with the store still
valid. -/
theorem leafRunSpec (k bn : String) (vs0 : List Value) (fuel : Nat)
    (vs : List Value) :
    ∀ (c : Nat) (orig : Option Value) (st : Store),
    k ∉ validatedKeys → validate st = true →
    ((runTrace (vs.length + 1) (pNext (fuel+1)) (.leaf k vs0 bn c orig (some vs)) st).map
        (fun o => (o.res.isName, o.writes))
      = vs.map (fun v => (true, [(k, v)])) ++ [(false, [])])
    ∧ ((runTrace (vs.length + 1) (pNext (fuel+1)) (.leaf k vs0 bn c orig (some vs)) st).map
        (fun o => o.res)
      = (traceNames (runTrace (vs.length + 1) (pNext (fuel+1))
          (.leaf k vs0 bn c orig (some vs)) st)).map NextRes.name ++ [.stop])
    ∧ (bn = "" →
        traceNames (runTrace (vs.length + 1) (pNext (fuel+1)) (.leaf k vs0 bn c orig (some vs)) st)
          = vs.map (fun v => k ++ "-" ++ Value.str v))
    ∧ ((runEnd (vs.length + 1) (pNext (fuel+1)) (.leaf k vs0 bn c orig (some vs)) st).1
      = .leaf k vs0 bn (c + vs.length + 1) orig (some []))
    ∧ validate (runEnd (vs.length + 1) (pNext (fuel+1)) (.leaf k vs0 bn c orig (some vs)) st).2
        = true := by
  induction vs with
  | nil =>
    intro c orig st hk hst
    refine ⟨?_, ?_, ?_, ?_, ?_⟩ <;>
      simp [runTrace, runEnd, pNext, traceNames, NextRes.isName, hst]
  | cons v rest ih =>
    intro c orig st hk hst
    have hval : validate (Store.set st k v) = true := by
      rw [validate_set_of_not_validated st k v hk]; exact hst
    have hstep := pNext_leaf_cons fuel k bn vs0 rest v c orig st hval
    obtain ⟨ih1, ih2, ih3, ih4, ih5⟩ := ih (c+1) orig (Store.set st k v) hk hval
    have hT : runTrace (rest.length + 1 + 1) (pNext (fuel+1))
        (.leaf k vs0 bn c orig (some (v :: rest))) st
        = ⟨.leaf k vs0 bn (c+1) orig (some rest), Store.set st k v, [(k, v)],
            .name (if bn ≠ "" then basenameFmt bn (c+1) else k ++ "-" ++ Value.str v)⟩
          :: runTrace (rest.length + 1) (pNext (fuel+1))
              (.leaf k vs0 bn (c+1) orig (some rest)) (Store.set st k v) := by
      rw [runTrace, hstep]
    have hE : runEnd (rest.length + 1 + 1) (pNext (fuel+1))
        (.leaf k vs0 bn c orig (some (v :: rest))) st
        = runEnd (rest.length + 1) (pNext (fuel+1))
            (.leaf k vs0 bn (c+1) orig (some rest)) (Store.set st k v) := by
      rw [runEnd, hstep]
    simp only [List.length_cons]
    refine ⟨?_, ?_, ?_, ?_, ?_⟩
    · rw [hT]
      simpa [NextRes.isName] using ih1
    · rw [hT]
      simpa [traceNames] using ih2
    · intro hbn
      subst hbn
      rw [hT]
      simpa [traceNames] using ih3 rfl
    · rw [hE, ih4]
      congr 1
      omega
    · rw [hE]
      exact ih5

/-- C2: for every planner tree, `length()` is computed structurally — a leaf
`Planner`'s length is the count of its values, a `SequencePlanner`'s length is
the sum of its children's lengths, a `ParallelPlanner`'s length is the length
of its first child, and a `CombinatorPlanner`'s length is the product of its
children's lengths. -/
theorem planner_length_structural :
    (∀ (k : String) (vs : List Value) (bn : String) (c : Nat) (orig : Option Value)
        (it : Option (List Value)), pLen (.leaf k vs bn c orig it) = vs.length)
    ∧ (∀ (cs : List BasePlanner) (bn : String) (c id : Nat) (b : Bool),
        pLen (.seq cs bn c id b) = (cs.map pLen).sum)
    ∧ (∀ (c0 : BasePlanner) (cs : List BasePlanner) (bn : String) (c : Nat) (b : Bool),
        pLen (.par (c0 :: cs) bn c b) = pLen c0)
    ∧ (∀ (cs : List BasePlanner) (bn : String) (c : Nat) (b : Bool)
        (ns : List (Option String)) (fi : Bool),
        pLen (.comb cs bn c b ns fi) = (cs.map pLen).prod) := by
  refine ⟨fun _ _ _ _ _ _ => rfl, fun cs _ _ _ _ => ?_, fun _ _ _ _ _ => rfl,
    fun cs _ _ _ _ _ => ?_⟩
  · simp [pLen, pLenSum_eq_map_sum]
  · simp [pLen, pLenProd_eq_map_prod]

/-- C3: for every leaf `Planner` over a key that validation does not
constrain, after `__iter__` exactly `|values|` advances succeed, writing
exactly the values of the list to the store in list order (one write per
advance), and the advance after the last value signals `StopIteration` and
performs no write. -/
theorem leaf_planner_advance_trace (k bn : String) (vs : List Value) (st : Store)
    (fuel : Nat) (hk : k ∉ validatedKeys) (hst : validate st = true) :
    ((runTrace (vs.length + 1) (pNext (fuel+1)) (pIter (PlannerInit k vs bn) st) st).map
        (fun o => (o.res.isName, o.writes))
      = vs.map (fun v => (true, [(k, v)])) ++ [(false, [])])
    ∧ ((runTrace (vs.length + 1) (pNext (fuel+1)) (pIter (PlannerInit k vs bn) st) st).map
        (fun o => o.res)
      = (traceNames (runTrace (vs.length + 1) (pNext (fuel+1))
          (pIter (PlannerInit k vs bn) st) st)).map NextRes.name ++ [.stop]) := by
  have h := leafRunSpec k bn vs fuel vs 0 (some (st k)) st hk hst
  exact ⟨h.1, h.2.1⟩

theorem leaf_planner_advance_trace_witness :
    ((runTrace 2 (pNext 1) (pIter (PlannerInit "lr" [.vInt 5] "") defaultStore)
        defaultStore).map (fun o => (o.res.isName, o.writes))
      = [(true, [("lr", .vInt 5)]), (false, [])])
    ∧ ((runTrace 2 (pNext 1) (pIter (PlannerInit "lr" [.vInt 5] "") defaultStore)
        defaultStore).map (fun o => o.res)
      = (traceNames (runTrace 2 (pNext 1) (pIter (PlannerInit "lr" [.vInt 5] "")
          defaultStore) defaultStore)).map NextRes.name ++ [.stop]) :=
  leaf_planner_advance_trace "lr" "" [.vInt 5] defaultStore 0 (by decide) (by decide)

/-- C7: constructing a `ParallelPlanner` from children whose lengths are not
all equal fails eagerly inside `__init__` (before any advance is possible)
with the length-mismatch error. -/
theorem parallel_length_mismatch_rejected (p0 : BasePlanner) (ps : List BasePlanner)
    (bn : String) (h : ((p0 :: ps).all (fun x => pLen x == pLen p0)) = false) :
    ParallelPlannerInit (p0 :: ps) bn
      = .error "Impossible to run parallel planner if all sub-planners do not have the same length" := by
  simp [ParallelPlannerInit, h]

theorem parallel_length_mismatch_rejected_witness :
    ParallelPlannerInit [PlannerInit "a" [.vInt 1, .vInt 2, .vInt 3] "",
        PlannerInit "b" [.vInt 1, .vInt 2, .vInt 3, .vInt 4] ""] ""
      = .error "Impossible to run parallel planner if all sub-planners do not have the same length" :=
  parallel_length_mismatch_rejected (PlannerInit "a" [.vInt 1, .vInt 2, .vInt 3] "")
    [PlannerInit "b" [.vInt 1, .vInt 2, .vInt 3, .vInt 4] ""] "" (by decide)

/-- C10: when `Settings.__setattr__` fails validation, the store is not
rolled back — the invalid value remains stored under the key after the
failure is raised, because the write to `__dict__` happens before
`validate()` runs. -/
theorem failed_set_keeps_written_value (st : Store) (k : String) (v : Value)
    (_h : (settingsSetAttr st k v).2 = false) :
    (settingsSetAttr st k v).1 k = v := by
  simp [settingsSetAttr, Store.set]

theorem failed_set_keeps_written_value_witness :
    (settingsSetAttr defaultStore "batch_size" (.vInt 0)).2 = false
    ∧ (settingsSetAttr defaultStore "batch_size" (.vInt 0)).1 "batch_size" = .vInt 0 :=
  ⟨by decide,
    failed_set_keeps_written_value defaultStore "batch_size" (.vInt 0) (by decide)⟩

set_option maxHeartbeats 4000000 in
/-- C1: the scenario `CombinatorPlanner([Planner('lr', [0.1, 0.01]),
Planner('epochs', [1, 5, 10])])` constructs successfully and enumerates the
full Cartesian product as a mixed-radix odometer with child index 0 fastest
varying: exactly 6 advances succeed, producing, in order, the names
`lr-0.1_epochs-1`, `lr-0.01_epochs-1`, `lr-0.1_epochs-5`, `lr-0.01_epochs-5`,
`lr-0.1_epochs-10`, `lr-0.01_epochs-10`, with the corresponding
`(lr, epochs)` pair present in the store when each name is returned, and the
7th advance signals `StopIteration`. -/
theorem combinator_cartesian_product_trace :
    CombinatorPlannerInit [PlannerInit "lr" [.vFloat 1 1, .vFloat 1 2] "",
        PlannerInit "epochs" [.vInt 1, .vInt 5, .vInt 10] ""] "" = .ok combLrEpochs
    ∧ (runTrace 10 (pNext 50) (pIter combLrEpochs defaultStore) defaultStore).map
        (fun o => (o.res, o.st "lr", o.st "epochs"))
      = [(.name "lr-0.1_epochs-1", .vFloat 1 1, .vInt 1),
         (.name "lr-0.01_epochs-1", .vFloat 1 2, .vInt 1),
         (.name "lr-0.1_epochs-5", .vFloat 1 1, .vInt 5),
         (.name "lr-0.01_epochs-5", .vFloat 1 2, .vInt 5),
         (.name "lr-0.1_epochs-10", .vFloat 1 1, .vInt 10),
         (.name "lr-0.01_epochs-10", .vFloat 1 2, .vInt 10),
         (.stop, .vFloat 1 1, .vInt 10)] :=
  ⟨rfl, by decide⟩

/-- C4 (counterexample): re-running `__iter__` after exhaustion does NOT
reproduce the name sequence in general.  For
`CombinatorPlanner([Planner('a', [1]), Planner('b', [2])])` the first
iteration produces `[a-1_b-2]` but, because `__iter__` resets neither
`_first_iter` nor the cached `_runs_name`, the second iteration produces
`[a-1_b-2, a-1_b-2]`.  For `Planner('a', [1], runs_basename='r')` the first
iteration produces `[r-001]` but, because `num_count` is never reset, the
second produces `[r-003]`. -/
theorem planner_restart_counterexample :
    (CombinatorPlannerInit [PlannerInit "a" [.vInt 1] "", PlannerInit "b" [.vInt 2] ""] ""
      = .ok combAB)
    ∧ (traceNames (runTrace 10 (pNext 50) (pIter combAB defaultStore) defaultStore)
        = ["a-1_b-2"])
    ∧ (traceNames (runTrace 10 (pNext 50)
        (pIter (runEnd 10 (pNext 50) (pIter combAB defaultStore) defaultStore).1
          (runEnd 10 (pNext 50) (pIter combAB defaultStore) defaultStore).2)
        (runEnd 10 (pNext 50) (pIter combAB defaultStore) defaultStore).2)
        = ["a-1_b-2", "a-1_b-2"])
    ∧ ((["a-1_b-2", "a-1_b-2"] : List String) ≠ ["a-1_b-2"])
    ∧ (traceNames (runTrace 5 (pNext 5) (pIter leafABase defaultStore) defaultStore)
        = ["r-001"])
    ∧ (traceNames (runTrace 5 (pNext 5)
        (pIter (runEnd 5 (pNext 5) (pIter leafABase defaultStore) defaultStore).1
          (runEnd 5 (pNext 5) (pIter leafABase defaultStore) defaultStore).2)
        (runEnd 5 (pNext 5) (pIter leafABase defaultStore) defaultStore).2)
        = ["r-003"])
    ∧ ((["r-003"] : List String) ≠ ["r-001"]) :=
  ⟨rfl, by decide⟩

/-- C4 (amended): restart idempotence holds for a leaf `Planner` without a
basename (over a key that validation does not constrain): running it to
exhaustion and calling `__iter__` again reproduces exactly the same name
sequence.  (It fails for `CombinatorPlanner` and for nodes with a basename,
see the counterexample.) -/
theorem leaf_restart_reproduces_names (k : String) (vs : List Value) (st0 : Store)
    (fuel : Nat) (hk : k ∉ validatedKeys) (hst : validate st0 = true) :
    traceNames (runTrace (vs.length + 1) (pNext (fuel+1))
        (pIter (runEnd (vs.length + 1) (pNext (fuel+1)) (pIter (PlannerInit k vs "") st0) st0).1
          (runEnd (vs.length + 1) (pNext (fuel+1)) (pIter (PlannerInit k vs "") st0) st0).2)
        (runEnd (vs.length + 1) (pNext (fuel+1)) (pIter (PlannerInit k vs "") st0) st0).2)
      = traceNames (runTrace (vs.length + 1) (pNext (fuel+1))
          (pIter (PlannerInit k vs "") st0) st0) := by
  have hi : pIter (PlannerInit k vs "") st0 = .leaf k vs "" 0 (some (st0 k)) (some vs) := rfl
  rw [hi]
  have h1 := leafRunSpec k "" vs fuel vs 0 (some (st0 k)) st0 hk hst
  rw [h1.2.2.2.1]
  have hi2 : pIter (.leaf k vs "" (0 + vs.length + 1) (some (st0 k)) (some []))
      (runEnd (vs.length + 1) (pNext (fuel+1)) (.leaf k vs "" 0 (some (st0 k)) (some vs)) st0).2
      = .leaf k vs "" (0 + vs.length + 1)
          (some ((runEnd (vs.length + 1) (pNext (fuel+1))
            (.leaf k vs "" 0 (some (st0 k)) (some vs)) st0).2 k)) (some vs) := rfl
  rw [hi2]
  have h2 := leafRunSpec k "" vs fuel vs (0 + vs.length + 1)
    (some ((runEnd (vs.length + 1) (pNext (fuel+1))
      (.leaf k vs "" 0 (some (st0 k)) (some vs)) st0).2 k))
    (runEnd (vs.length + 1) (pNext (fuel+1))
      (.leaf k vs "" 0 (some (st0 k)) (some vs)) st0).2 hk h1.2.2.2.2
  rw [h2.2.2.1 rfl, h1.2.2.1 rfl]

theorem leaf_restart_reproduces_names_witness :
    traceNames (runTrace 3 (pNext 1)
        (pIter (runEnd 3 (pNext 1) (pIter (PlannerInit "a" [.vInt 5, .vInt 6] "") defaultStore)
            defaultStore).1
          (runEnd 3 (pNext 1) (pIter (PlannerInit "a" [.vInt 5, .vInt 6] "") defaultStore)
            defaultStore).2)
        (runEnd 3 (pNext 1) (pIter (PlannerInit "a" [.vInt 5, .vInt 6] "") defaultStore)
            defaultStore).2)
      = traceNames (runTrace 3 (pNext 1)
          (pIter (PlannerInit "a" [.vInt 5, .vInt 6] "") defaultStore) defaultStore) :=
  leaf_restart_reproduces_names "a" [.vInt 5, .vInt 6] defaultStore 0 (by decide) (by decide)

/-- C5 (counterexample): constructing a `CombinatorPlanner` whose child list
contains a zero-length child does not raise — `CombinatorPlanner.__init__`
only rejects an empty child list, so `CombinatorPlanner([Planner('a', [])])`
constructs successfully instead of failing with a structural error. -/
theorem combinator_zero_length_child_constructs :
    CombinatorPlannerInit [PlannerInit "a" [] ""] "" = .ok combEmptyChild := rfl

/-- C5 (amended): a `CombinatorPlanner` with a zero-length child is accepted
at construction (only an empty child list is rejected) and then silently
yields no run at all: its first advance signals `StopIteration`, producing no
name and writing nothing to the store. -/
theorem combinator_zero_length_child_yields_nothing :
    (CombinatorPlannerInit [PlannerInit "a" [] ""] "" = .ok combEmptyChild)
    ∧ ((runTrace 5 (pNext 50) (pIter combEmptyChild defaultStore) defaultStore).map
        (fun o => (o.res, o.writes)) = [(.stop, [])])
    ∧ (traceNames (runTrace 5 (pNext 50) (pIter combEmptyChild defaultStore) defaultStore)
        = []) :=
  ⟨rfl, by decide, by decide⟩

/-- C6 (counterexample): with a basename, the name of the i-th successful
advance is NOT always `{basename}-{i:03d}`: `num_count` is incremented by
every `__next__` call, including the recursive retry
`SequencePlanner.__next__` performs when switching children.  For
`SequencePlanner([Planner('a', [1]), Planner('b', [2])], 's')` the second
successful advance returns `s-003`, not `s-002`. -/
theorem sequence_basename_counter_skips :
    (SequencePlannerInit [PlannerInit "a" [.vInt 1] "", PlannerInit "b" [.vInt 2] ""] "s"
      = .ok seqABBase)
    ∧ ((runTrace 10 (pNext 50) (pIter seqABBase defaultStore) defaultStore).map
        (fun o => o.res) = [.name "s-001", .name "s-003", .stop])
    ∧ (NextRes.name "s-003" ≠ .name "s-002") :=
  ⟨rfl, by decide, by decide⟩

/-- C6 (amended): the name returned by a successful advance of a node with a
basename is `{basename}-{c:03d}` where `c` is the node's `num_count` after
the increment this call performs — i.e. the total number of `__next__` calls
made on the node, successful or not, not the number of successful ones
(shown here for a leaf `Planner`; counts are skipped whenever an advance
fails or an internal retry occurs, see the counterexample). -/
theorem basename_name_uses_advance_count (fuel : Nat) (k bn : String)
    (vs0 rest : List Value) (v : Value) (c : Nat) (orig : Option Value) (st : Store)
    (hbn : bn ≠ "") (hk : k ∉ validatedKeys) (hst : validate st = true) :
    (pNext (fuel+1) (.leaf k vs0 bn c orig (some (v :: rest))) st).res
      = .name (basenameFmt bn (c+1)) := by
  have hval : validate (Store.set st k v) = true := by
    rw [validate_set_of_not_validated st k v hk]; exact hst
  rw [pNext_leaf_cons fuel k bn vs0 rest v c orig st hval]
  simp [hbn]

theorem basename_name_uses_advance_count_witness :
    (pNext 1 (.leaf "lr" [] "x" 7 none (some [.vInt 1])) defaultStore).res
      = .name "x-008" :=
  basename_name_uses_advance_count 0 "lr" "x" [] [] (.vInt 1) 7 none defaultStore
    (by decide) (by decide) (by decide)

/-- C8 (counterexample): during a single advance of a planner tree, more than
one leaf may write to the store.  One advance of
`ParallelPlanner([Planner('a', [1]), Planner('b', [2])])` succeeds and writes
two values — one per leaf child — not exactly one. -/
theorem parallel_advance_two_writes :
    (ParallelPlannerInit [PlannerInit "a" [.vInt 1] "", PlannerInit "b" [.vInt 2] ""] ""
      = .ok parAB)
    ∧ ((pNext 50 (pIter parAB defaultStore) defaultStore).res = .name "a-1_b-2")
    ∧ ((pNext 50 (pIter parAB defaultStore) defaultStore).writes
        = [("a", .vInt 1), ("b", .vInt 2)])
    ∧ ((2 : Nat) ≠ 1) :=
  ⟨rfl, by decide, by decide, by decide⟩

/-- Advancing a list of begun leaf children in order (the shared list
comprehension of `ParallelPlanner.__next__`): when every child has a pending
value under a key that validation does not constrain, every child succeeds,
each performing exactly one store write, and the store stays valid. -/
theorem parNextAux_leaf_children (fuel : Nat) (cs : List BasePlanner) :
    ∀ (st : Store), validate st = true →
    (∀ p ∈ cs, ∃ k vs0 bn c orig v rest,
        p = BasePlanner.leaf k vs0 bn c orig (some (v :: rest)) ∧ k ∉ validatedKeys) →
    ((parNextAux (pNext (fuel+1)) cs st).2.2.1.length = cs.length)
    ∧ (validate (parNextAux (pNext (fuel+1)) cs st).2.1 = true)
    ∧ ((parNextAux (pNext (fuel+1)) cs st).2.2.2.isLeft = true) := by
  induction cs with
  | nil =>
    intro st hst _
    exact ⟨rfl, hst, rfl⟩
  | cons p ps ih =>
    intro st hst hsh
    obtain ⟨k, vs0, bn, c, orig, v, rest, hp, hk⟩ := hsh p (List.mem_cons_self p ps)
    subst hp
    have hval : validate (Store.set st k v) = true := by
      rw [validate_set_of_not_validated st k v hk]; exact hst
    have hstep := pNext_leaf_cons fuel k bn vs0 rest v c orig st hval
    obtain ⟨ih1, ih2, ih3⟩ := ih (Store.set st k v) hval
      (fun q hq => hsh q (List.mem_cons_of_mem _ hq))
    rcases hsum : (parNextAux (pNext (fuel+1)) ps (Store.set st k v)).2.2.2 with ns | e
    · refine ⟨?_, ?_, ?_⟩ <;> simp [parNextAux, hstep, hsum, ih1, ih2]
    · rw [hsum] at ih3
      simp at ih3

/-- C8 (amended): during a single advance of a `ParallelPlanner` every child
advances, so one store write occurs per leaf child: an advance of a parallel
node over `n` begun leaf children (each with a pending value under an
unconstrained key) succeeds and performs exactly `n` writes — "exactly one
leaf writes per advance" only holds for `n = 1`. -/
theorem parallel_one_write_per_child (fuel : Nat) (cs : List BasePlanner)
    (bn : String) (c : Nat) (st : Store) (hst : validate st = true)
    (hcs : ∀ p ∈ cs, ∃ k vs0 bnl cl orig v rest,
        p = BasePlanner.leaf k vs0 bnl cl orig (some (v :: rest)) ∧ k ∉ validatedKeys) :
    ((pNext (fuel+1+1) (.par cs bn c true) st).writes.length = cs.length)
    ∧ ((pNext (fuel+1+1) (.par cs bn c true) st).res.isName = true) := by
  obtain ⟨h1, h2, h3⟩ := parNextAux_leaf_children fuel cs st hst hcs
  have hpar : pNext (fuel+1+1) (.par cs bn c true) st
      = (match (parNextAux (pNext (fuel+1)) cs st).2.2.2 with
         | Sum.inl ns =>
           ⟨.par (parNextAux (pNext (fuel+1)) cs st).1 bn (c+1) true,
             (parNextAux (pNext (fuel+1)) cs st).2.1,
             (parNextAux (pNext (fuel+1)) cs st).2.2.1,
             .name (if bn ≠ "" then basenameFmt bn (c+1) else String.intercalate "_" ns)⟩
         | Sum.inr e =>
           ⟨.par (parNextAux (pNext (fuel+1)) cs st).1 bn (c+1) true,
             (parNextAux (pNext (fuel+1)) cs st).2.1,
             (parNextAux (pNext (fuel+1)) cs st).2.2.1, e⟩) := rfl
  rcases hsum : (parNextAux (pNext (fuel+1)) cs st).2.2.2 with ns | e
  · rw [hpar, hsum]
    exact ⟨h1, rfl⟩
  · rw [hsum] at h3
    simp at h3

theorem parallel_one_write_per_child_witness :
    ((pNext 2 (.par [.leaf "a" [.vInt 1] "" 0 (some (.vInt 0)) (some [.vInt 1]),
          .leaf "b" [.vInt 2] "" 0 (some (.vInt 0)) (some [.vInt 2])] "" 0 true)
        defaultStore).writes.length = 2)
    ∧ ((pNext 2 (.par [.leaf "a" [.vInt 1] "" 0 (some (.vInt 0)) (some [.vInt 1]),
          .leaf "b" [.vInt 2] "" 0 (some (.vInt 0)) (some [.vInt 2])] "" 0 true)
        defaultStore).res.isName = true) :=
  parallel_one_write_per_child 0
    [.leaf "a" [.vInt 1] "" 0 (some (.vInt 0)) (some [.vInt 1]),
     .leaf "b" [.vInt 2] "" 0 (some (.vInt 0)) (some [.vInt 2])] "" 0 defaultStore
    (by decide)
    (by
      intro p hp
      simp only [List.mem_cons, List.not_mem_nil, or_false] at hp
      rcases hp with h | h <;> subst h
      · exact ⟨"a", [.vInt 1], "", 0, some (.vInt 0), .vInt 1, [], rfl, by decide⟩
      · exact ⟨"b", [.vInt 2], "", 0, some (.vInt 0), .vInt 2, [], rfl, by decide⟩)

/-- C9 (counterexample): when a `SequencePlanner`'s child signals
end-of-sequence, the settings are NOT always restored to the values they had
when that child's iteration began.  Here the child
`CombinatorPlanner([Planner('lr', [0.1, 0.01]), Planner('ep', [1, 5])])`
starts with `lr = 0` in the store, but after the child is exhausted and the
next child `Planner('d', [7])` begins, `lr` is `0.01` — the value captured
when the combinator's carry re-began the `lr` leaf mid-sweep — not `0`. -/
theorem sequence_restore_after_carry_counterexample :
    (CombinatorPlannerInit [PlannerInit "lr" [.vFloat 1 1, .vFloat 1 2] "",
        PlannerInit "ep" [.vInt 1, .vInt 5] ""] "" = .ok combLrEp)
    ∧ (SequencePlannerInit [combLrEp, PlannerInit "d" [.vInt 7] ""] "" = .ok seqCombLeaf)
    ∧ (defaultStore "lr" = .vInt 0)
    ∧ ((runTrace 10 (pNext 50) (pIter seqCombLeaf defaultStore) defaultStore).map
        (fun o => (o.res, o.st "lr"))
      = [(.name "lr-0.1_ep-1", .vFloat 1 1),
         (.name "lr-0.01_ep-1", .vFloat 1 2),
         (.name "lr-0.1_ep-5", .vFloat 1 1),
         (.name "lr-0.01_ep-5", .vFloat 1 2),
         (.name "d-7", .vFloat 1 2),
         (.stop, .vFloat 1 2)])
    ∧ (Value.vFloat 1 2 ≠ .vInt 0) :=
  ⟨rfl, rfl, rfl, by decide, by decide⟩

/-- C9 (amended): whenever a `SequencePlanner`'s current child signals
end-of-sequence, the child's `reset_original_values` runs before the next
child is begun (and for the last child before the sequence's own
`StopIteration`), and for a begun leaf child this restores the store at the
child's key to the child's `_setting_original_value` — the value captured at
that leaf's MOST RECENT begin, which is the value at the start of the child's
iteration only when the leaf was not re-begun mid-sweep (first conjunct: the
restoration equation for any begun leaf; remaining conjuncts: a
`SequencePlanner([Planner('a', [1, 2]), Planner('b', [7])])` run starting
from `a = 'o'`, where the boundary advance that opens child `b` has already
restored `a` to `'o'`, and the final exhausting advance has also restored
`b`). -/
theorem sequence_restores_leaf_child_value :
    (∀ (k : String) (vs0 : List Value) (bn : String) (c : Nat) (v0 : Value)
        (itv : List Value) (st : Store),
        (pReset (.leaf k vs0 bn c (some v0) (some itv)) st).st k = v0)
    ∧ ((runTrace 6 (pNext 50) (pIter seqAB (Store.set defaultStore "a" (.vStr "o")))
        (Store.set defaultStore "a" (.vStr "o"))).map (fun o => (o.res, o.st "a", o.st "b"))
      = [(.name "a-1", .vInt 1, .vInt 0),
         (.name "a-2", .vInt 2, .vInt 0),
         (.name "b-7", .vStr "o", .vInt 7),
         (.stop, .vStr "o", .vInt 0)]) := by
  constructor
  · intro k vs0 bn c v0 itv st
    by_cases h : st k = v0
    · simp [pReset, h]
    · simp [pReset, h, settingsSetAttr, Store.set]
  · decide
